import Mathlib

/-!
Shallow embedding of the resilient-invocation core of
`src/patterns/security_utils.py`: the rate limiter, retry handler,
circuit breaker, resource manager and alarm-based timeout context.

Wall-clock instants and durations are rationals (Python floats from
`time.time()`).  A fallible Python call is an `Except PyError` value;
a Python exception is modelled by its class name and message, since
these are the only observable parts the code under study produces or
inspects.  Sleeping is modelled by the idealized timing semantics:
`time.sleep(d)` advances the clock by exactly `d`, and consecutive
`time.time()` reads with no sleep between them return the same instant.
-/

set_option autoImplicit false

namespace SecurityUtils

/-- A Python exception value, reduced to its observable parts: the exception
class name and the message string. -/
structure PyError where
  cls : String
  msg : String
deriving DecidableEq, Repr

/-- The exception raised by `CircuitBreaker.call` when it rejects a call:
`raise Exception("Circuit breaker is OPEN")` — the generic `Exception`
class, carrying only a message. -/
def breakerOpenError : PyError :=
  { cls := "Exception", msg := "Circuit breaker is OPEN" }

/-! ## RateLimiter -/

/-- State of `RateLimiter`: `min_interval` is fixed at construction,
`last_request_time` starts at 0 and is updated by `wait_if_needed`. -/
structure RateLimiter where
  min_interval : ℚ
  last_request_time : ℚ
deriving DecidableEq, Repr

/-- `RateLimiter.wait_if_needed`, given the wall-clock instant `now` at which
it is entered.  Returns the updated limiter and the duration slept.
The recorded `last_request_time` is the `time.time()` read taken after the
sleep, i.e. `now` plus the slept duration under the idealized clock. -/
def RateLimiter.wait_if_needed (rl : RateLimiter) (now : ℚ) : RateLimiter × ℚ :=
  let time_since_last := now - rl.last_request_time
  if time_since_last < rl.min_interval then
    ({ rl with last_request_time := now + (rl.min_interval - time_since_last) },
      rl.min_interval - time_since_last)
  else
    ({ rl with last_request_time := now }, 0)

/-- Run a sequence of `wait_if_needed` calls, one per entry instant in `nows`;
each trace entry is the recorded call-start time and the duration slept. -/
def RateLimiter.run (rl : RateLimiter) : List ℚ → List (ℚ × ℚ)
  | [] => []
  | now :: rest =>
    ((rl.wait_if_needed now).1.last_request_time, (rl.wait_if_needed now).2)
      :: (rl.wait_if_needed now).1.run rest

/-- The recorded call-start timestamps of a sequence of `wait_if_needed`
calls. -/
def RateLimiter.starts (rl : RateLimiter) (nows : List ℚ) : List ℚ :=
  (rl.run nows).map Prod.fst

/-! ## RetryHandler -/

/-- Configuration of `RetryHandler`: `max_retries` retries beyond the first
attempt, `backoff` the base backoff duration. -/
structure RetryHandler where
  max_retries : Nat
  backoff : ℚ
deriving DecidableEq, Repr

/-- The loop body of `RetryHandler.retry_with_backoff`.  `op k` is the outcome
of the k-th invocation of `func` (0-indexed); `attempt` is the current loop
index and the fuel is the number of retries still allowed after this attempt.
Returns the final outcome (`raise last_exception` on exhaustion), the number
of invocations performed, and the list of sleep durations in order. -/
def retryGo {α : Type} (op : Nat → Except PyError α) (backoff : ℚ) :
    Nat → Nat → Except PyError α × Nat × List ℚ
  | attempt, 0 => (op attempt, 1, [])
  | attempt, n + 1 =>
    match op attempt with
    | .ok a => (.ok a, 1, [])
    | .error _ =>
      ((retryGo op backoff (attempt + 1) n).1,
        (retryGo op backoff (attempt + 1) n).2.1 + 1,
        backoff * 2 ^ attempt :: (retryGo op backoff (attempt + 1) n).2.2)

/-- `RetryHandler.retry_with_backoff`: runs the attempt loop starting at
attempt 0 with `max_retries` retries remaining. -/
def RetryHandler.retry_with_backoff {α : Type} (h : RetryHandler)
    (op : Nat → Except PyError α) : Except PyError α × Nat × List ℚ :=
  retryGo op h.backoff 0 h.max_retries

/-! ## CircuitBreaker -/

/-- The three values of `CircuitBreaker.state`: the strings `'CLOSED'`,
`'OPEN'`, `'HALF_OPEN'`. -/
inductive CBState
  | closed
  | open_
  | halfOpen
deriving DecidableEq, Repr

/-- State of `CircuitBreaker`: threshold and recovery timeout are fixed at
construction; `failure_count` starts at 0, `last_failure_time` at `None`,
`state` at `'CLOSED'`. -/
structure CircuitBreaker where
  failure_threshold : Nat
  recovery_timeout : ℚ
  failure_count : Nat
  last_failure_time : Option ℚ
  state : CBState
deriving DecidableEq, Repr

/-- `CircuitBreaker.call`, given the wall-clock instant `now` of the call and
the outcome `op` the wrapped function would produce if invoked.  Returns the
updated breaker, the observed outcome (the function result, the re-raised
function exception, or the rejection exception), and whether the wrapped
function was invoked.  In the `OPEN` gate the code reads
`self.last_failure_time`, which is only ever read after a failure has set it;
`Option.getD` 0 stands for that always-set read. -/
def CircuitBreaker.call {α : Type} (cb : CircuitBreaker) (now : ℚ)
    (op : Except PyError α) : CircuitBreaker × Except PyError α × Bool :=
  if cb.state = CBState.open_ ∧
      ¬ now - cb.last_failure_time.getD 0 > cb.recovery_timeout then
    (cb, .error breakerOpenError, false)
  else
    let cb1 := if cb.state = CBState.open_
      then { cb with state := CBState.halfOpen } else cb
    match op with
    | .ok a =>
      if cb1.state = CBState.halfOpen then
        ({ cb1 with state := CBState.closed, failure_count := 0 }, .ok a, true)
      else
        (cb1, .ok a, true)
    | .error e =>
      ({ cb1 with
          failure_count := cb1.failure_count + 1,
          last_failure_time := some now,
          state := if cb1.failure_count + 1 ≥ cb1.failure_threshold
            then CBState.open_ else cb1.state },
        .error e, true)

/-- Fold a sequence of calls through a breaker, keeping only the state. -/
def runCalls (cb : CircuitBreaker) (calls : List (ℚ × Except PyError Unit)) :
    CircuitBreaker :=
  calls.foldl (fun c p => (c.call p.1 p.2).1) cb

/-- Breaker states reachable from a freshly constructed breaker by any
sequence of calls.  `step` is one completed `call`; `gate` is the mid-call
`OPEN → HALF_OPEN` transition the code performs before invoking the probe,
i.e. the state the breaker is in while a `HALF_OPEN` probe executes. -/
inductive Reachable : CircuitBreaker → Prop
  | init (ft : Nat) (rt : ℚ) :
      Reachable ⟨ft, rt, 0, none, CBState.closed⟩
  | step (cb : CircuitBreaker) (now : ℚ) (op : Except PyError Unit) :
      Reachable cb → Reachable (cb.call now op).1
  | gate (cb : CircuitBreaker) (now : ℚ) :
      Reachable cb → cb.state = CBState.open_ →
      now - cb.last_failure_time.getD 0 > cb.recovery_timeout →
      Reachable { cb with state := CBState.halfOpen }

/-! ## ResourceManager -/

/-- A registered handle, reduced to its observable disposal interface:
`close` is `some o` when the object has a `close` attribute whose invocation
produces outcome `o` (`.error` for a raising disposer), likewise `cleanup`. -/
structure Resource where
  rid : Nat
  close : Option (Except PyError Unit)
  cleanup : Option (Except PyError Unit)

/-- An observable disposal action: which method was invoked on which
handle. -/
inductive DisposeEvent
  | closeCalled (rid : Nat)
  | cleanupCalled (rid : Nat)
deriving DecidableEq, Repr

/-- One iteration of the `cleanup` loop before the `except` clause: invoke
`close` if present, else `cleanup` if present; report the invocations made
and the raw outcome. -/
def invokeDisposers (r : Resource) : List DisposeEvent × Except PyError Unit :=
  match r.close with
  | some o => ([DisposeEvent.closeCalled r.rid], o)
  | none =>
    match r.cleanup with
    | some o => ([DisposeEvent.cleanupCalled r.rid], o)
    | none => ([], .ok ())

/-- One iteration of the `cleanup` loop: the `try ... except Exception: pass`
around the body discards any raised disposal error, so only the invocations
remain observable and the loop always proceeds to the next handle. -/
def disposeStep (r : Resource) : List DisposeEvent :=
  (invokeDisposers r).1

/-- State of `ResourceManager`: the ordered list of registered handles. -/
structure ResourceManager where
  resources : List Resource

/-- `ResourceManager.add_resource`: append a handle to the list. -/
def ResourceManager.add_resource (m : ResourceManager) (r : Resource) :
    ResourceManager :=
  ⟨m.resources ++ [r]⟩

/-- `ResourceManager.cleanup`: dispose every registered handle in order,
swallowing disposal errors, then clear the list.  Returns the new manager
state and the disposal events in order; the method itself never raises. -/
def ResourceManager.cleanup (m : ResourceManager) :
    ResourceManager × List DisposeEvent :=
  (⟨[]⟩, (m.resources.map disposeStep).flatten)

/-- The `with` statement around a `ResourceManager`: the body finishes with
outcome `body` (a result, or the exception it raised — an early return is a
normal outcome), then `__exit__` runs `cleanup` and returns `None`, so the
body outcome propagates unchanged.  Returns the observed outcome, the final
manager state and the disposal events. -/
def ResourceManager.exit {α : Type} (m : ResourceManager)
    (body : Except PyError α) :
    Except PyError α × ResourceManager × List DisposeEvent :=
  (body, (m.cleanup).1, (m.cleanup).2)

/-- The disposal event `cleanup` performs for one handle, if any: `close` is
preferred, `cleanup` is the fallback, a handle with neither is skipped. -/
def eventOf (r : Resource) : Option DisposeEvent :=
  match r.close with
  | some _ => some (DisposeEvent.closeCalled r.rid)
  | none =>
    match r.cleanup with
    | some _ => some (DisposeEvent.cleanupCalled r.rid)
    | none => none

/-! ## timeout_context -/

/-- The process signal state observable by `timeout_context`: the pending
`SIGALRM` countdown (0 = disarmed) and the installed handler, named. -/
structure SignalState where
  alarm : Nat
  handler : String
deriving DecidableEq, Repr

/-- An operation under a deadline: how long it runs and the outcome it
produces when allowed to finish. -/
structure TimedOp (α : Type) where
  duration : Nat
  result : Except PyError α

/-- The `TimeoutError` raised by the alarm handler installed by
`timeout_context`. -/
def timeoutError (seconds : Nat) : PyError :=
  { cls := "TimeoutError",
    msg := "Operation timed out after " ++ toString seconds ++ " seconds" }

/-- `timeout_context(seconds)` around an operation `op`: install the
`TimeoutError`-raising handler, arm `signal.alarm(seconds)`, run the body,
and in the `finally` clause disarm the alarm and restore the old handler.
Under the idealized timed semantics the armed alarm fires iff it is armed
(`seconds > 0`) and the operation is still running when the countdown ends
(`seconds < duration`); the raised `TimeoutError` then replaces the body
outcome. -/
def timeout_context {α : Type} (seconds : Nat) (op : TimedOp α)
    (s : SignalState) : Except PyError α × SignalState :=
  let outcome : Except PyError α :=
    if 0 < seconds ∧ seconds < op.duration
      then .error (timeoutError seconds) else op.result
  (outcome, { alarm := 0, handler := s.handler })

/-! ## Concrete fixtures -/

/-- A generic operation failure used in examples. -/
def someErr : PyError := { cls := "ValueError", msg := "boom" }

/-- A freshly constructed breaker with the default configuration
(threshold 5, recovery timeout 60). -/
def cbInit : CircuitBreaker := ⟨5, 60, 0, none, CBState.closed⟩

/-- A freshly constructed breaker with threshold 1, recovery timeout 60. -/
def cbT1 : CircuitBreaker := ⟨1, 60, 0, none, CBState.closed⟩

/-- The breaker `cbT1` after one failing call at time 0: reachable, `OPEN`,
`failure_count = 1`, `last_failure_time = 0`. -/
def cbOpen1 : CircuitBreaker :=
  (cbT1.call 0 (.error someErr : Except PyError Unit)).1

/-- The breaker `cbOpen1` caught at the mid-call `OPEN → HALF_OPEN`
transition of a call arriving at time 61. -/
def cbHalf1 : CircuitBreaker := { cbOpen1 with state := CBState.halfOpen }

/-- An always-failing operation used as a retry witness. -/
def retryOpW : Nat → Except PyError Unit :=
  fun _ => .error { cls := "Exception", msg := "boom" }

/-- A 2-second operation, used against a 1-second deadline. -/
def slowOpW : TimedOp Unit := ⟨2, .ok ()⟩

/-- An instantaneous operation, used against a 1-second deadline. -/
def fastOpW : TimedOp Unit := ⟨0, .ok ()⟩

/-- The signal state before entering `timeout_context`: no pending alarm,
default handler installed. -/
def sigW : SignalState := ⟨0, "SIG_DFL"⟩

/-- `cbOpen1` is reachable: fresh construction followed by one failing call
at time 0. -/
theorem cbOpen1_reachable : Reachable cbOpen1 :=
  Reachable.step cbT1 0 (.error someErr) (Reachable.init 1 60)

/-- `cbHalf1` is reachable: it is `cbOpen1` caught at the mid-call
`OPEN → HALF_OPEN` gate of a call arriving at time 61 > 0 + 60. -/
theorem cbHalf1_reachable : Reachable cbHalf1 :=
  Reachable.gate cbOpen1 61 cbOpen1_reachable rfl
    (by rw [show cbOpen1 = ⟨1, 60, 1, some 0, CBState.open_⟩ from rfl]; norm_num)

/-! ## Rate limiter theorems -/

/-- Closed form of `wait_if_needed` as a pair, with the branch condition
exposed. -/
theorem wait_if_needed_eq (rl : RateLimiter) (now : ℚ) :
    rl.wait_if_needed now =
      (⟨rl.min_interval,
        if now - rl.last_request_time < rl.min_interval
          then now + (rl.min_interval - (now - rl.last_request_time)) else now⟩,
        if now - rl.last_request_time < rl.min_interval
          then rl.min_interval - (now - rl.last_request_time) else 0) := by
  unfold RateLimiter.wait_if_needed
  by_cases h : now - rl.last_request_time < rl.min_interval <;> simp [h]

/-- `wait_if_needed` never changes `min_interval`. -/
theorem wait_if_needed_min_interval (rl : RateLimiter) (now : ℚ) :
    (rl.wait_if_needed now).1.min_interval = rl.min_interval := by
  rw [wait_if_needed_eq]

/-- One `wait_if_needed` call moves the recorded start forward by at least
`min_interval`. -/
theorem wait_if_needed_gap (rl : RateLimiter) (now : ℚ) :
    rl.min_interval ≤
      (rl.wait_if_needed now).1.last_request_time - rl.last_request_time := by
  rw [wait_if_needed_eq]
  by_cases h : now - rl.last_request_time < rl.min_interval <;> simp [h]
  · linarith
  · linarith [not_lt.mp h]

/-- Along any run, every recorded start is at least `min_interval` after the
previously recorded one, including the initial `last_request_time`. -/
theorem run_chain_gap (rl : RateLimiter) (nows : List ℚ) :
    List.Chain' (fun a b => rl.min_interval ≤ b - a)
      (rl.last_request_time :: rl.starts nows) := by
  induction nows generalizing rl with
  | nil => simp [RateLimiter.starts, RateLimiter.run]
  | cons now rest ih =>
    have h2 := ih (rl.wait_if_needed now).1
    rw [wait_if_needed_min_interval] at h2
    simpa [RateLimiter.starts, RateLimiter.run, List.chain'_cons]
      using ⟨wait_if_needed_gap rl now, h2⟩

/-- C7: for every RateLimiter and every sequence of sequential acquire calls,
consecutive recorded call-start timestamps differ by at least `min_interval`;
each call sleeps exactly the remaining portion of `min_interval` since the
previously recorded start and records its own start as the instant the sleep
ends. -/
theorem rate_limiter_spacing (rl : RateLimiter) (nows : List ℚ) :
    List.Chain' (fun a b => rl.min_interval ≤ b - a) (rl.starts nows) ∧
    ∀ (r : RateLimiter) (now : ℚ),
      (r.wait_if_needed now).2 =
        (if now - r.last_request_time < r.min_interval
          then r.min_interval - (now - r.last_request_time) else 0) ∧
      (r.wait_if_needed now).1.last_request_time =
        now + (r.wait_if_needed now).2 := by
  constructor
  · exact (run_chain_gap rl nows).tail
  · intro r now
    rw [wait_if_needed_eq]
    by_cases h : now - r.last_request_time < r.min_interval <;> simp [h]

/-! ## Retry theorems -/

/-- For an always-failing operation, the retry loop starting at `attempt`
with `n` retries of fuel performs `n + 1` invocations, sleeps
`backoff * 2 ^ k` after each non-final attempt `k`, and ends with the last
failure. -/
theorem retryGo_all_fail {α : Type} (errs : Nat → PyError)
    (op : Nat → Except PyError α) (hop : ∀ k, op k = .error (errs k))
    (backoff : ℚ) :
    ∀ (n a : Nat), retryGo op backoff a n =
      (.error (errs (a + n)), n + 1,
        (List.range n).map fun k => backoff * 2 ^ (a + k)) := by
  intro n
  induction n with
  | zero =>
    intro a
    simp [retryGo, hop a]
  | succ n ih =>
    intro a
    rw [retryGo, hop a]
    rw [ih (a + 1)]
    refine congrArg₂ Prod.mk ?_ (congrArg₂ Prod.mk rfl ?_)
    · have : a + 1 + n = a + (n + 1) := by omega
      rw [this]
    · rw [List.range_succ_eq_map, List.map_cons, List.map_map]
      refine congrArg₂ List.cons ?_ ?_
      · norm_num
      · refine List.map_congr_left fun k _ => ?_
        have : a + 1 + k = a + Nat.succ k := by omega
        simp [Function.comp, this]

/-- C3: for an operation that fails on every invocation and any RetryHandler,
`retry_with_backoff` invokes the operation exactly `max_retries + 1` times,
sleeps `backoff * 2 ^ k` between attempt k and attempt k + 1, and ends by
re-raising the last observed failure verbatim. -/
theorem retry_exhausts_spec {α : Type} (h : RetryHandler) (errs : Nat → PyError)
    (op : Nat → Except PyError α) (hop : ∀ k, op k = .error (errs k)) :
    h.retry_with_backoff op =
      (.error (errs h.max_retries), h.max_retries + 1,
        (List.range h.max_retries).map fun k => h.backoff * 2 ^ k) := by
  have := retryGo_all_fail errs op hop h.backoff h.max_retries 0
  simpa using this

/-- Witness for C3: `max_retries = 3`, `backoff = 1`, an always-failing
operation: 4 invocations, sleeps 1, 2, 4, outcome the final failure. -/
theorem retry_exhausts_spec_witness :
    (∀ k, retryOpW k = .error { cls := "Exception", msg := "boom" }) ∧
    (RetryHandler.mk 3 1).retry_with_backoff retryOpW =
      (.error { cls := "Exception", msg := "boom" }, 4, [1, 2, 4]) := by
  refine ⟨fun k => rfl, ?_⟩
  have := retry_exhausts_spec (RetryHandler.mk 3 1)
    (fun _ => { cls := "Exception", msg := "boom" }) retryOpW (fun k => rfl)
  rw [show List.range 3 = [0, 1, 2] from rfl] at this
  norm_num at this
  exact this

/-! ## Resource manager theorems -/

/-- The disposal events of one `cleanup` iteration are exactly the single
preferred-disposer invocation, regardless of whether the disposer raises. -/
theorem disposeStep_eq (r : Resource) :
    disposeStep r = (eventOf r).toList := by
  rcases hc : r.close with _ | o
  · rcases hcl : r.cleanup with _ | o2 <;>
      simp [disposeStep, invokeDisposers, eventOf, hc, hcl]
  · simp [disposeStep, invokeDisposers, eventOf, hc]

/-- The events of a full `cleanup` pass are one invocation per registered
handle that has a disposer, in registration order. -/
theorem cleanup_events_eq (rs : List Resource) :
    (rs.map disposeStep).flatten = rs.filterMap eventOf := by
  induction rs with
  | nil => rfl
  | cons r rs ih =>
    rw [List.map_cons, List.flatten_cons, List.filterMap_cons, disposeStep_eq, ih]
    cases eventOf r <;> simp

/-- C8: when a ResourceManager scope exits with any body outcome, every
registered handle's disposer is invoked exactly once (one event per handle
with a disposer, in order, whatever each disposer's own outcome), the body's
outcome is observed unchanged, and the resource list is cleared. -/
theorem scope_disposes_exactly_once {α : Type} (m : ResourceManager)
    (body : Except PyError α) :
    (m.exit body).1 = body ∧
    (m.exit body).2.2 = m.resources.filterMap eventOf ∧
    (m.exit body).2.1.resources = [] := by
  refine ⟨rfl, ?_, rfl⟩
  show (m.resources.map disposeStep).flatten = m.resources.filterMap eventOf
  exact cleanup_events_eq m.resources

/-- C10: `cleanup` is idempotent: it clears the list, so a second `cleanup`
(or the scope exit after a manual `cleanup`) returns the same empty state and
disposes nothing further. -/
theorem cleanup_idempotent {α : Type} (m : ResourceManager)
    (body : Except PyError α) :
    (m.cleanup).1.cleanup = ((m.cleanup).1, []) ∧
    ((m.cleanup).1.exit body).2.2 = [] :=
  ⟨rfl, rfl⟩

/-! ## Timeout theorems -/

/-- C9: with a positive armed deadline, an operation that runs longer than
the deadline is aborted with the distinct `TimeoutError` kind; an operation
that completes before the deadline returns its normal outcome; in both cases
the alarm ends disarmed and the previous handler is restored. -/
theorem timeout_spec {α : Type} (seconds : Nat) (op : TimedOp α)
    (s : SignalState) (hpos : 0 < seconds) :
    (seconds < op.duration →
      (timeout_context seconds op s).1 = .error (timeoutError seconds) ∧
      (timeoutError seconds).cls = "TimeoutError") ∧
    (op.duration < seconds →
      (timeout_context seconds op s).1 = op.result) ∧
    (timeout_context seconds op s).2 = { alarm := 0, handler := s.handler } := by
  refine ⟨fun hgt => ⟨?_, rfl⟩, fun hlt => ?_, rfl⟩
  · show (if 0 < seconds ∧ seconds < op.duration then _ else op.result) = _
    rw [if_pos ⟨hpos, hgt⟩]
  · show (if 0 < seconds ∧ seconds < op.duration then _ else op.result) = _
    rw [if_neg (by omega)]

/-- Witness for C9: deadline 1 around an operation of duration 2 yields
`TimeoutError`; around an operation of duration 0 it yields the normal
result, with the signal state restored to disarmed. -/
theorem timeout_spec_witness :
    ((timeout_context 1 slowOpW sigW).1 = .error (timeoutError 1) ∧
      (timeoutError 1).cls = "TimeoutError") ∧
    (timeout_context 1 fastOpW sigW).1 = fastOpW.result ∧
    (timeout_context 1 fastOpW sigW).2 = { alarm := 0, handler := sigW.handler } :=
  ⟨(timeout_spec 1 slowOpW sigW (by decide)).1 (by decide),
    (timeout_spec 1 fastOpW sigW (by decide)).2.1 (by decide),
    (timeout_spec 1 fastOpW sigW (by decide)).2.2⟩

/-! ## Circuit breaker theorems -/

/-- One `call` preserves the invariant that an `OPEN` or `HALF_OPEN` breaker
has accumulated at least `failure_threshold` failures. -/
theorem call_preserves_threshold {α : Type} (cb : CircuitBreaker) (now : ℚ)
    (op : Except PyError α)
    (hinv : cb.state = CBState.open_ ∨ cb.state = CBState.halfOpen →
      cb.failure_threshold ≤ cb.failure_count) :
    (cb.call now op).1.state = CBState.open_ ∨
      (cb.call now op).1.state = CBState.halfOpen →
    (cb.call now op).1.failure_threshold ≤ (cb.call now op).1.failure_count := by
  rcases hso : cb.state with _ | _ | _
  · rcases op with e | a
    · simp only [CircuitBreaker.call, hso]
      by_cases h2 : cb.failure_count + 1 ≥ cb.failure_threshold <;>
        simp [h2, hso]
    · simp [CircuitBreaker.call, hso]
  · by_cases hgate : now - cb.last_failure_time.getD 0 > cb.recovery_timeout
    · rcases op with e | a
      · have hth := hinv (Or.inl hso)
        simp only [CircuitBreaker.call, hso]
        by_cases h2 : cb.failure_count + 1 ≥ cb.failure_threshold <;>
          simp [h2, hso, hgate] <;> omega
      · simp [CircuitBreaker.call, hso, hgate]
    · intro h3
      simp [CircuitBreaker.call, hso, hgate]
      exact hinv (Or.inl hso)
  · rcases op with e | a
    · have hth := hinv (Or.inr hso)
      simp only [CircuitBreaker.call, hso]
      by_cases h2 : cb.failure_count + 1 ≥ cb.failure_threshold <;>
        simp [h2, hso] <;> omega
    · simp [CircuitBreaker.call, hso]

/-- Every reachable `OPEN` or `HALF_OPEN` breaker has accumulated at least
`failure_threshold` failures (the failure count is never reset on the way to
those states). -/
theorem reachable_threshold {cb : CircuitBreaker} (h : Reachable cb) :
    cb.state = CBState.open_ ∨ cb.state = CBState.halfOpen →
    cb.failure_threshold ≤ cb.failure_count := by
  induction h with
  | init ft rt => rintro (h | h) <;> simp at h
  | step cb now op hr ih => exact call_preserves_threshold cb now op ih
  | gate cb now hr hs ht ih => exact fun _ => ih (Or.inl hs)

/-- C1 amended: a successful call on a Closed breaker leaves the breaker
entirely unchanged — in particular `failure_count` is NOT reset to 0; only
the HalfOpen-to-Closed transition resets it. -/
theorem closed_success_leaves_count {α : Type} (cb : CircuitBreaker)
    (h : cb.state = CBState.closed) (now : ℚ) (a : α) :
    cb.call now (.ok a) = (cb, .ok a, true) := by
  simp [CircuitBreaker.call, h]

/-- Witness for the amended C1: a fresh Closed breaker is unchanged by a
successful call. -/
theorem closed_success_leaves_count_witness :
    cbInit.state = CBState.closed ∧
    cbInit.call 0 (.ok () : Except PyError Unit) = (cbInit, .ok (), true) :=
  ⟨rfl, closed_success_leaves_count cbInit rfl 0 ()⟩

/-- C1 counterexample: after one failure at time 0 the default breaker is
Closed with `failure_count = 1`; a successful call at time 1 leaves
`failure_count` at 1, not 0 as the claim states, so a success interleaved
between failures does not restart the consecutive-failure count. -/
theorem closed_success_reset_refuted :
    (cbInit.call 0 (.error someErr : Except PyError Unit)).1.state =
      CBState.closed ∧
    (cbInit.call 0 (.error someErr : Except PyError Unit)).1.failure_count = 1 ∧
    ((cbInit.call 0 (.error someErr : Except PyError Unit)).1.call 1
        (.ok () : Except PyError Unit)).1.failure_count = 1 ∧
    ((cbInit.call 0 (.error someErr : Except PyError Unit)).1.call 1
        (.ok () : Except PyError Unit)).1.failure_count ≠ 0 := by
  have h : (cbInit.call 0 (.error someErr : Except PyError Unit)).1 =
      ⟨5, 60, 1, some 0, CBState.closed⟩ := rfl
  rw [h]
  exact ⟨rfl, rfl, rfl, Nat.one_ne_zero⟩

/-- C2 amended: a call on an Open breaker whose recovery timeout has not
elapsed is rejected without invoking the wrapped operation, by raising the
generic `Exception` class with message "Circuit breaker is OPEN" — the
rejection is distinguished only by its message, not by a dedicated exception
kind. -/
theorem open_reject_generic {α : Type} (cb : CircuitBreaker) (now : ℚ)
    (hs : cb.state = CBState.open_)
    (ht : now - cb.last_failure_time.getD 0 ≤ cb.recovery_timeout)
    (op : Except PyError α) :
    cb.call now op = (cb, .error breakerOpenError, false) ∧
    breakerOpenError.cls = "Exception" ∧
    breakerOpenError.msg = "Circuit breaker is OPEN" := by
  refine ⟨?_, rfl, rfl⟩
  unfold CircuitBreaker.call
  rw [if_pos ⟨hs, not_lt.mpr ht⟩]

/-- Witness for the amended C2: the open breaker `cbOpen1` at time 30
(30 seconds elapsed of a 60 second recovery timeout) rejects a would-succeed
operation without invoking it. -/
theorem open_reject_generic_witness :
    cbOpen1.call 30 (.ok () : Except PyError Unit) =
      (cbOpen1, .error breakerOpenError, false) ∧
    breakerOpenError.cls = "Exception" ∧
    breakerOpenError.msg = "Circuit breaker is OPEN" :=
  open_reject_generic cbOpen1 30 rfl
    (by rw [show cbOpen1 = ⟨1, 60, 1, some 0, CBState.open_⟩ from rfl]; norm_num)
    (.ok ())

/-- C2 counterexample: the rejection error is not a distinct kind. A wrapped
operation that itself raises `Exception("Circuit breaker is OPEN")` through a
Closed breaker produces exactly the same observed error value — same class
`Exception`, same message — as the Open-state rejection, so the two cases
cannot be distinguished by the error's kind alone. -/
theorem open_reject_kind_refuted :
    (cbInit.call 0 (.error breakerOpenError : Except PyError Unit)).2 =
      (.error breakerOpenError, true) ∧
    (cbOpen1.call 30 (.ok () : Except PyError Unit)).2 =
      (.error breakerOpenError, false) := by
  refine ⟨rfl, ?_⟩
  rw [show cbOpen1 = ⟨1, 60, 1, some 0, CBState.open_⟩ from rfl]
  norm_num [CircuitBreaker.call]

/-- C4: from a fresh breaker with threshold 5, five consecutive failing calls
leave the breaker Open with `failure_count = 5` and `last_failure_time` the
time of the fifth failure; a sixth call made before the recovery timeout has
elapsed is rejected without invoking the wrapped operation. -/
theorem breaker_opens_after_threshold (rt t1 t2 t3 t4 t5 t6 : ℚ)
    (e1 e2 e3 e4 e5 : PyError) (h : t6 - t5 < rt) :
    runCalls ⟨5, rt, 0, none, CBState.closed⟩
        [(t1, .error e1), (t2, .error e2), (t3, .error e3), (t4, .error e4),
          (t5, .error e5)] =
      ⟨5, rt, 5, some t5, CBState.open_⟩ ∧
    (⟨5, rt, 5, some t5, CBState.open_⟩ : CircuitBreaker).call t6
        (.ok () : Except PyError Unit) =
      (⟨5, rt, 5, some t5, CBState.open_⟩, .error breakerOpenError, false) := by
  constructor
  · have s1 : ((⟨5, rt, 0, none, CBState.closed⟩ : CircuitBreaker).call t1
        (.error e1 : Except PyError Unit)).1 = ⟨5, rt, 1, some t1, CBState.closed⟩ := rfl
    have s2 : ((⟨5, rt, 1, some t1, CBState.closed⟩ : CircuitBreaker).call t2
        (.error e2 : Except PyError Unit)).1 = ⟨5, rt, 2, some t2, CBState.closed⟩ := rfl
    have s3 : ((⟨5, rt, 2, some t2, CBState.closed⟩ : CircuitBreaker).call t3
        (.error e3 : Except PyError Unit)).1 = ⟨5, rt, 3, some t3, CBState.closed⟩ := rfl
    have s4 : ((⟨5, rt, 3, some t3, CBState.closed⟩ : CircuitBreaker).call t4
        (.error e4 : Except PyError Unit)).1 = ⟨5, rt, 4, some t4, CBState.closed⟩ := rfl
    have s5 : ((⟨5, rt, 4, some t4, CBState.closed⟩ : CircuitBreaker).call t5
        (.error e5 : Except PyError Unit)).1 = ⟨5, rt, 5, some t5, CBState.open_⟩ := rfl
    simp only [runCalls, List.foldl]
    rw [s1, s2, s3, s4, s5]
  · unfold CircuitBreaker.call
    exact if_pos ⟨rfl, not_lt.mpr (le_of_lt h)⟩

/-- Witness for C4 with recovery timeout 60, failures at times 0..4 and the
sixth call at time 5. -/
theorem breaker_opens_after_threshold_witness :
    runCalls ⟨5, 60, 0, none, CBState.closed⟩
        [(0, .error someErr), (1, .error someErr), (2, .error someErr),
          (3, .error someErr), (4, .error someErr)] =
      ⟨5, 60, 5, some 4, CBState.open_⟩ ∧
    (⟨5, 60, 5, some 4, CBState.open_⟩ : CircuitBreaker).call 5
        (.ok () : Except PyError Unit) =
      (⟨5, 60, 5, some 4, CBState.open_⟩, .error breakerOpenError, false) :=
  breaker_opens_after_threshold 60 0 1 2 3 4 5
    someErr someErr someErr someErr someErr (by norm_num)

/-- C5 amended: for a reachable Open breaker, when the elapsed time since
`last_failure_time` STRICTLY exceeds `recovery_timeout` (the code tests `>`,
not `≥`), a successful call transitions to Closed with `failure_count` reset
to 0, and a failing call transitions back to Open with `last_failure_time`
reset to the new failure time. -/
theorem open_recovery {α : Type} (cb : CircuitBreaker) (hr : Reachable cb)
    (hs : cb.state = CBState.open_) (now : ℚ)
    (ht : now - cb.last_failure_time.getD 0 > cb.recovery_timeout)
    (a : α) (e : PyError) :
    cb.call now (.ok a) =
      ({ cb with state := CBState.closed, failure_count := 0 }, .ok a, true) ∧
    (cb.call now (.error e : Except PyError Unit)).1 =
      { cb with
        failure_count := cb.failure_count + 1
        last_failure_time := some now
        state := CBState.open_ } ∧
    (cb.call now (.error e : Except PyError Unit)).2 = (.error e, true) := by
  have hth := reachable_threshold hr (Or.inl hs)
  refine ⟨?_, ?_, ?_⟩ <;>
    simp [CircuitBreaker.call, hs, ht, show cb.failure_count + 1 ≥
      cb.failure_threshold by omega]

/-- Witness for the amended C5: `cbOpen1` (Open at time 0, recovery timeout
60) probed at time 61. -/
theorem open_recovery_witness :
    cbOpen1.call 61 (.ok () : Except PyError Unit) =
      ({ cbOpen1 with state := CBState.closed, failure_count := 0 },
        .ok (), true) ∧
    (cbOpen1.call 61 (.error someErr : Except PyError Unit)).1 =
      { cbOpen1 with
        failure_count := cbOpen1.failure_count + 1
        last_failure_time := some 61
        state := CBState.open_ } ∧
    (cbOpen1.call 61 (.error someErr : Except PyError Unit)).2 =
      (.error someErr, true) :=
  open_recovery cbOpen1 cbOpen1_reachable rfl 61
    (by rw [show cbOpen1 = ⟨1, 60, 1, some 0, CBState.open_⟩ from rfl]; norm_num)
    () someErr

/-- C5 counterexample: at the boundary where the elapsed time EQUALS the
recovery timeout (claimed elapsed `≥` timeout: here 60 − 0 = 60), the code
rejects the call without invoking the operation and stays Open, instead of
transitioning as the claim states. -/
theorem open_recovery_boundary_refuted :
    cbOpen1.state = CBState.open_ ∧
    cbOpen1.recovery_timeout = 60 ∧
    cbOpen1.last_failure_time = some 0 ∧
    cbOpen1.call 60 (.ok () : Except PyError Unit) =
      (cbOpen1, .error breakerOpenError, false) := by
  refine ⟨rfl, rfl, rfl, ?_⟩
  rw [show cbOpen1 = ⟨1, 60, 1, some 0, CBState.open_⟩ from rfl]
  norm_num [CircuitBreaker.call]

/-- C6: a reachable breaker observed in the HalfOpen state (the probe state
entered when a call arrives after the recovery timeout) transitions to Open
on the next failing call, and to Closed with `failure_count` reset to 0 on
the next successful call. -/
theorem halfOpen_probe {α : Type} (cb : CircuitBreaker) (hr : Reachable cb)
    (hs : cb.state = CBState.halfOpen) (now : ℚ) (e : PyError) (a : α) :
    (cb.call now (.error e : Except PyError Unit)).1.state = CBState.open_ ∧
    (cb.call now (.ok a)).1.state = CBState.closed ∧
    (cb.call now (.ok a)).1.failure_count = 0 := by
  have hth := reachable_threshold hr (Or.inr hs)
  refine ⟨?_, ?_, ?_⟩ <;>
    simp [CircuitBreaker.call, hs, show cb.failure_count + 1 ≥
      cb.failure_threshold by omega]

/-- Witness for C6: the half-open probe state `cbHalf1`, reached through a
failure at time 0 and a gate passage at time 61, probed at time 62. -/
theorem halfOpen_probe_witness :
    (cbHalf1.call 62 (.error someErr : Except PyError Unit)).1.state =
      CBState.open_ ∧
    (cbHalf1.call 62 (.ok () : Except PyError Unit)).1.state =
      CBState.closed ∧
    (cbHalf1.call 62 (.ok () : Except PyError Unit)).1.failure_count = 0 :=
  halfOpen_probe cbHalf1 cbHalf1_reachable rfl 62 someErr ()

end SecurityUtils
